import Mathlib

/-!
# Verification of the hyper-pong 2D batched renderer

Shallow embedding of `src/engine/src/renderer/renderer2d.cpp` (the newer,
textured/circle renderer variant — the one all claims cite) and of the
Game-of-Life rule from the demo layer (`src/unnamed/part_000`).

Modelling conventions:
* `std::vector` push_back / clear become `List` append / `[]`.
* Machine integers (`uint32_t`, `int`) are modelled as `Nat`; every value
  they take in the modelled code is non-negative and far below 2^31, so no
  wrap-around can occur (the Game-of-Life neighbour indices, which can be
  negative, use `Int`).
* `float` fields that only ever hold small integral slot indices
  (`QuadVertex::textureIndex` holds `0.0` or `(float)i`, `i < 32`) are
  modelled as `Nat`; these values are exactly representable.
* glm float arithmetic (the model/view matrices) is not inspected by any
  claim; a model matrix `translate(position + vec3(size/2,0)) * scale(size,0)`
  is represented by its defining data `(position, size)`, and a
  caller-provided `glm::mat4` is an opaque token.
* calls into the device facade (`setData`, `bind`, `drawIndexed`,
  `drawLines`, …) are recorded as an event trace, so "issues a draw call"
  becomes "the trace contains a draw event".
-/

/-- Rational 2-vector standing for a `glm::vec2` (float entries abstracted
exactly; no claim computes with them). -/
structure Vec2 where
  x : ℚ
  y : ℚ
  deriving DecidableEq

/-- Rational 3-vector standing for a `glm::vec3`. -/
structure Vec3 where
  x : ℚ
  y : ℚ
  z : ℚ
  deriving DecidableEq

/-- Rational 4-vector standing for a `glm::vec4` (positions and RGBA colors). -/
structure Vec4 where
  x : ℚ
  y : ℚ
  z : ℚ
  w : ℚ
  deriving DecidableEq

/-- Opaque stand-in for a caller-provided `glm::mat4` (the view-projection
matrix of `beginScene` and the transform argument of `drawCircle`): its float
entries are never inspected by the renderer logic, only forwarded. -/
structure Mat4 where
  tag : Nat
  deriving DecidableEq

instance : Inhabited Mat4 := ⟨⟨0⟩⟩

/-- A texture handle (`hyp::Ref<hyp::Texture2D>`), identified by the object
it points to. Modelled from the spec: `Texture2D::operator==` is declared in
the device facade, whose sources are not under `src/`; spec §6 specifies
"identity-equality comparison" for `Texture2D`, so two handles are equal
exactly when they are the same texture object, which we represent by a
numeric identity. -/
abbrev Tex := Nat

/-- Opaque light descriptor (`hyp::Light`): spec §3 says its fields are owned
by the device facade; the scheduler only stores and counts them. -/
abbrev Light := Nat

/-- Embeds `maxQuad` from `RendererData` (renderer2d.cpp:105). -/
def maxQuad : Nat := 1000

/-- Embeds `maxVertices = maxQuad * 4` (renderer2d.cpp:106). -/
def maxVertices : Nat := maxQuad * 4

/-- Embeds `maxIndices = maxQuad * 6` (renderer2d.cpp:107). -/
def maxIndices : Nat := maxQuad * 6

/-- Embeds `maxTextureSlots` from `RendererData` (renderer2d.cpp:109). -/
def maxTextureSlots : Nat := 32

/-- Embeds `maxLight` (renderer2d.cpp:12). -/
def maxLight : Nat := 32

/-- The four corner positions `QuadData::vertexPos` written by
`utils::initQuad` (renderer2d.cpp:404-407); entries `±0.5, 0, 1` are exact
floats. They are written once at init and never modified, so they are
modelled as a constant. -/
def quadVertexPos : Fin 4 → Vec4
  | 0 => ⟨1/2, 1/2, 0, 1⟩
  | 1 => ⟨-1/2, 1/2, 0, 1⟩
  | 2 => ⟨-1/2, -1/2, 0, 1⟩
  | 3 => ⟨1/2, -1/2, 0, 1⟩

/-- The four uv coordinates `QuadData::uvCoords` (renderer2d.cpp:409-412),
likewise constant after init. -/
def quadUvCoords : Fin 4 → Vec2
  | 0 => ⟨1, 1⟩
  | 1 => ⟨0, 1⟩
  | 2 => ⟨0, 0⟩
  | 3 => ⟨1, 0⟩

/-- Truncation `glm::vec3 = glm::vec4` (drops the w component), used when a
`vertexPos` corner is stored into a `QuadVertex::pos`. -/
def vec4ToVec3 (v : Vec4) : Vec3 := ⟨v.x, v.y, v.z⟩

/-- Embeds `QuadVertex` (renderer2d.cpp:27-34). `transformIndex` is an `int` and
`textureIndex` a `float` in the source; both only ever hold small
non-negative integral values (see the modelling conventions above). -/
structure QuadVertex where
  pos : Vec3
  color : Vec4
  uv : Vec2
  transformIndex : Nat
  textureIndex : Nat
  deriving DecidableEq

/-- The default `QuadVertex` produced by its member initializers
(pos 0, color 1, uv {}, indices 0); `initQuad` resizes the vertex vector to
`maxVertices` such elements. -/
def QuadVertex.dflt : QuadVertex :=
  { pos := ⟨0, 0, 0⟩, color := ⟨1, 1, 1, 1⟩, uv := ⟨0, 0⟩
    transformIndex := 0, textureIndex := 0 }

/-- Embeds `LineVertex` (renderer2d.cpp:36-39). -/
structure LineVertex where
  position : Vec3
  color : Vec4
  deriving DecidableEq

/-- Default `LineVertex` from its member initializers. -/
def LineVertex.dflt : LineVertex := { position := ⟨0, 0, 0⟩, color := ⟨1, 1, 1, 1⟩ }

/-- Embeds `CircleVertex` (renderer2d.cpp:41-47). `worldPosition` is
`transform * quad.vertexPos[i]`, a float matrix-vector product the claims
never inspect: it is represented by its operands (the transform token and the
corner index). `localPosition = vertexPos[i] * 2` is exact and kept. -/
structure CircleVertex where
  worldTransform : Mat4
  corner : Fin 4
  localPosition : Vec3
  color : Vec4
  thickness : ℚ
  fade : ℚ
  deriving DecidableEq

/-- Zero-initialized `CircleVertex{}` (value initialization used by `resize`
in `initCircle` and by `drawCircle` before the fields are assigned). -/
def CircleVertex.dflt : CircleVertex :=
  { worldTransform := ⟨0⟩, corner := 0, localPosition := ⟨0, 0, 0⟩
    color := ⟨0, 0, 0, 0⟩, thickness := 0, fade := 0 }

/-- The model matrix built by both `drawQuad` overloads:
`translate(mat4(1), position + vec3(size/2, 0))` then `scale(·, vec3(size, 0))`
(renderer2d.cpp:238-240, 302-304). The float matrix entries are never read
back by the renderer; the matrix is represented by its defining data. -/
structure QuadModel where
  position : Vec3
  size : Vec2
  deriving DecidableEq

/-- Embeds `QuadData` (renderer2d.cpp:56-73): CPU-side quad batch. The device
handles (vao/vbo/shader/uniform buffer) live on the device side and appear
only in the event trace. -/
structure QuadData where
  vertices : List QuadVertex
  transforms : List QuadModel
  transformIndexCount : Nat
  indexCount : Nat
  deriving DecidableEq

/-- Embeds `QuadData::reset` (renderer2d.cpp:67-72). -/
def QuadData.reset : QuadData :=
  { vertices := [], transforms := [], transformIndexCount := 0, indexCount := 0 }

/-- Embeds `LineData` (renderer2d.cpp:75-80). -/
structure LineData where
  vertices : List LineVertex
  deriving DecidableEq

/-- Embeds `LineData::reset` (renderer2d.cpp:77-79). -/
def LineData.reset : LineData := { vertices := [] }

/-- Embeds `CircleData` (renderer2d.cpp:82-90). -/
structure CircleData where
  vertices : List CircleVertex
  indexCount : Nat
  deriving DecidableEq

/-- Embeds `CircleData::reset` (renderer2d.cpp:86-89). -/
def CircleData.reset : CircleData := { vertices := [], indexCount := 0 }

/-- Embeds `LightingData` (renderer2d.cpp:95-100). -/
structure LightingData where
  lights : List Light
  lightCount : Nat
  enabled : Bool
  deriving DecidableEq

/-- Embeds `Renderer2D::Stats`: declared in `renderer2d.hpp` (not under `src/`);
fields and types inferred from every use site in renderer2d.cpp
(`drawCalls`, `quadCount` counted in whole numbers; `lineCount` accumulated
as `float(size)/2`, modelled exactly in `ℚ` — `size` is always even in
reachable states, so the float quotient is exact). -/
structure Stats where
  drawCalls : Nat
  quadCount : Nat
  lineCount : ℚ
  deriving DecidableEq

/-- The full mutable renderer state `RendererData` / `s_renderer`
(renderer2d.cpp:102-133). `textureSlots` is the fixed array of texture
handles; unassigned entries (never read by the code: the lookup only scans
`[1, textureSlotIndex)` and slot 0 is set at init) are `none`. -/
structure RState where
  quad : QuadData
  line : LineData
  circle : CircleData
  lighting : LightingData
  textureSlots : Nat → Option Tex
  textureSlotIndex : Nat
  cameraViewProjection : Mat4
  stats : Stats

/-- Device-side effects, recorded in program order. -/
inductive Ev where
  /-- Embeds `quad.vbo->setData(vertices.data(), …)`; carries the vertex count. -/
  | uploadQuadVertices (count : Nat)
  /-- Embeds `quad.uniformBuffer->setData(transforms.data(), …)`. -/
  | uploadQuadTransforms (count : Nat)
  /-- Embeds `lighting.uniformBuffer->setData(lights.data(), …)`. -/
  | uploadLights (count : Nat)
  /-- Embeds `program->setInt("noLights", n)`. -/
  | setNoLights (n : Nat)
  /-- Embeds `textureSlots[i]->bind(i)`. -/
  | bindTexture (slot : Nat)
  /-- Embeds `RenderCommand::drawIndexed(quad.vao, indexCount)` — the quad draw call. -/
  | drawIndexedQuad (indexCount : Nat)
  /-- Embeds `line.vbo->setData(…)`. -/
  | uploadLineVertices (count : Nat)
  /-- Embeds `RenderCommand::drawLines(line.vao, size)` — the line draw call. -/
  | drawVertexLines (count : Nat)
  /-- Embeds `circle.vbo->setData(…)`. -/
  | uploadCircleVertices (count : Nat)
  /-- Embeds `RenderCommand::drawIndexed(circle.vao, indexCount)` — the circle draw call. -/
  | drawIndexedCircle (indexCount : Nat)
  /-- Embeds `cameraUniformBuffer->setData(…)` in `beginScene`. -/
  | uploadCamera
  /-- a failed `HYP_ASSERT_CORE` (debug abort; no-op in release). -/
  | assertFailed
  deriving DecidableEq

/-- Recognizes the quad draw call among events. -/
def Ev.isQuadDraw : Ev → Bool
  | .drawIndexedQuad _ => true
  | _ => false

/-- Recognizes the circle draw call. -/
def Ev.isCircleDraw : Ev → Bool
  | .drawIndexedCircle _ => true
  | _ => false

/-- Recognizes the line draw call. -/
def Ev.isLineDraw : Ev → Bool
  | .drawVertexLines _ => true
  | _ => false

/-- Recognizes any draw call (quad, line or circle). -/
def Ev.isDraw : Ev → Bool
  | .drawIndexedQuad _ => true
  | .drawVertexLines _ => true
  | .drawIndexedCircle _ => true
  | _ => false

/-- Recognizes a failed assertion. -/
def Ev.isAssertFailed : Ev → Bool
  | .assertFailed => true
  | _ => false

/-- Number of quad draw calls in a trace. -/
def countQuadDraws (es : List Ev) : Nat := (es.filter Ev.isQuadDraw).length

/-- Number of draw calls of any kind in a trace. -/
def countDraws (es : List Ev) : Nat := (es.filter Ev.isDraw).length

/-- The identity of the default 1×1 white texture created by `init`
(renderer2d.cpp:142-147) and stored in slot 0. -/
def defaultTex : Tex := 0

/-- Pointwise update of the texture-slot array (`textureSlots[i] = t`). -/
def setSlot (slots : Nat → Option Tex) (i : Nat) (t : Tex) : Nat → Option Tex :=
  fun j => if j = i then some t else slots j

/-- State after `Renderer2D::init` (renderer2d.cpp:135-151): the three
`init*` helpers resize each CPU vertex vector to `maxVertices`
default-constructed elements (renderer2d.cpp:363-364, 468-469, 505-506),
the default texture goes into slot 0, and `textureSlotIndex` starts at 1
(its member initializer, renderer2d.cpp:114). -/
def initState : RState :=
  { quad := { vertices := List.replicate maxVertices QuadVertex.dflt
              transforms := [], transformIndexCount := 0, indexCount := 0 }
    line := { vertices := List.replicate maxVertices LineVertex.dflt }
    circle := { vertices := List.replicate maxVertices CircleVertex.dflt
                indexCount := 0 }
    lighting := { lights := [], lightCount := 0, enabled := false }
    textureSlots := setSlot (fun _ => none) 0 defaultTex
    textureSlotIndex := 1
    cameraViewProjection := default
    stats := { drawCalls := 0, quadCount := 0, lineCount := 0 } }

namespace utils

/-- Embeds `utils::flushQuad` (renderer2d.cpp:415-446): no-op when the vertex list
is empty; otherwise uploads vertices and transforms, sets the light uniforms
(`noLights` is the light count when lighting is enabled, else 0; the light
buffer is uploaded only when enabled), binds every slot in
`[0, textureSlotIndex)`, issues the indexed draw, and bumps
`stats.quadCount` by the transform count and `stats.drawCalls` by 1. -/
def flushQuad (s : RState) : RState × List Ev :=
  if s.quad.vertices.length = 0 then (s, [])
  else
    let lightEvs :=
      if s.lighting.enabled then
        [Ev.setNoLights s.lighting.lightCount, Ev.uploadLights s.lighting.lights.length]
      else
        [Ev.setNoLights 0]
    let evs :=
      [Ev.uploadQuadVertices s.quad.vertices.length,
       Ev.uploadQuadTransforms s.quad.transforms.length]
      ++ lightEvs
      ++ (List.range s.textureSlotIndex).map Ev.bindTexture
      ++ [Ev.drawIndexedQuad s.quad.indexCount]
    ({ s with stats := { s.stats with
          quadCount := s.stats.quadCount + s.quad.transforms.length
          drawCalls := s.stats.drawCalls + 1 } },
     evs)

/-- Embeds `utils::nextQuadBatch` (renderer2d.cpp:448-453): flush, then reset the
quad batch only and reset the slot index to 1. -/
def nextQuadBatch (s : RState) : RState × List Ev :=
  let (s1, evs) := flushQuad s
  ({ s1 with quad := QuadData.reset, textureSlotIndex := 1 }, evs)

/-- Embeds `utils::flushLine` (renderer2d.cpp:477-492): no-op when empty; otherwise
uploads, draws `size` line vertices, bumps `stats.lineCount` by `size/2` and
`stats.drawCalls` by 1. -/
def flushLine (s : RState) : RState × List Ev :=
  if s.line.vertices.length = 0 then (s, [])
  else
    ({ s with stats := { s.stats with
          lineCount := s.stats.lineCount + (s.line.vertices.length : ℚ) / 2
          drawCalls := s.stats.drawCalls + 1 } },
     [Ev.uploadLineVertices s.line.vertices.length,
      Ev.drawVertexLines s.line.vertices.length])

/-- Embeds `utils::nextLineBatch` (renderer2d.cpp:494-498). -/
def nextLineBatch (s : RState) : RState × List Ev :=
  let (s1, evs) := flushLine s
  ({ s1 with line := LineData.reset }, evs)

/-- Embeds `utils::flushCircle` (renderer2d.cpp:550-564): no-op when `indexCount`
is 0; otherwise uploads the vertex vector and issues the indexed draw.
It updates no statistics counter. -/
def flushCircle (s : RState) : RState × List Ev :=
  if s.circle.indexCount = 0 then (s, [])
  else
    (s,
     [Ev.uploadCircleVertices s.circle.vertices.length,
      Ev.drawIndexedCircle s.circle.indexCount])

/-- The texture-lookup loop of the textured `drawQuad`
(renderer2d.cpp:267-273): scan slots `1 … textureSlotIndex - 1` in order,
return the first slot holding the texture, else 0 ("not found" — the loop
variable starts at 1, so index 0 doubles as the not-found marker). -/
def findSlot (slots : Nat → Option Tex) (slotIndex : Nat) (t : Tex) : Nat :=
  ((List.range' 1 (slotIndex - 1)).find? fun i => slots i == some t).getD 0

end utils

namespace Renderer2D

/-- Embeds `Renderer2D::flush` (renderer2d.cpp:166-170): flush quads, lines, then
circles, in that order. -/
def flush (s : RState) : RState × List Ev :=
  let (s1, e1) := utils.flushQuad s
  let (s2, e2) := utils.flushLine s1
  let (s3, e3) := utils.flushCircle s2
  (s3, e1 ++ e2 ++ e3)

/-- Embeds `Renderer2D::startBatch` (renderer2d.cpp:173-190): reset the three
primitive batches, zero the statistics, clear the lights, and reset the slot
index (the slot array contents are not touched). -/
def startBatch (s : RState) : RState :=
  { s with
    quad := QuadData.reset
    line := LineData.reset
    circle := CircleData.reset
    stats := { drawCalls := 0, lineCount := 0, quadCount := 0 }
    lighting := { s.lighting with lights := [], lightCount := 0 }
    textureSlotIndex := 1 }

/-- Embeds `Renderer2D::nextBatch` (renderer2d.cpp:195-199). -/
def nextBatch (s : RState) : RState × List Ev :=
  let (s1, evs) := flush s
  (startBatch s1, evs)

/-- Embeds `Renderer2D::beginScene` (renderer2d.cpp:201-207): start a fresh batch,
store the camera matrix and upload it. -/
def beginScene (s : RState) (vp : Mat4) : RState × List Ev :=
  ({ startBatch s with cameraViewProjection := vp }, [Ev.uploadCamera])

/-- Embeds `Renderer2D::endScene` (renderer2cpp:209-211): flush only. -/
def endScene (s : RState) : RState × List Ev := flush s

/-- Embeds `Renderer2D::enableLighting` (renderer2d.cpp:213-216). -/
def enableLighting (s : RState) (value : Bool) : RState :=
  { s with lighting := { s.lighting with enabled := value } }

/-- Embeds `Renderer2D::addLight` (renderer2d.cpp:218-226): silently drop the light
once `lightCount` has reached `maxLight`. -/
def addLight (s : RState) (light : Light) : RState :=
  if maxLight ≤ s.lighting.lightCount then s
  else
    { s with lighting := { s.lighting with
        lights := s.lighting.lights ++ [light]
        lightCount := s.lighting.lightCount + 1 } }

/-- The four vertices appended by the untextured `drawQuad`
(renderer2d.cpp:244-253): corner position and uv from the init-time tables,
the given color, texture index 0 (the default texture), and the current
`transformIndexCount` as instance index. -/
def untexturedQuadVertices (color : Vec4) (ti : Nat) : List QuadVertex :=
  (List.finRange 4).map fun i =>
    { pos := vec4ToVec3 (quadVertexPos i), color := color, uv := quadUvCoords i
      transformIndex := ti, textureIndex := 0 }

/-- Untextured `Renderer2D::drawQuad` (renderer2d.cpp:228-258): roll the quad
batch over first when it already holds `maxQuad` transforms, then append the
four vertices, the model transform, and bump the counters. -/
def drawQuad (s : RState) (position : Vec3) (size : Vec2) (color : Vec4) :
    RState × List Ev :=
  let (s1, evs) :=
    if s.quad.transforms.length = maxQuad then utils.nextQuadBatch s else (s, [])
  ({ s1 with quad := { s1.quad with
        vertices := s1.quad.vertices ++ untexturedQuadVertices color s1.quad.transformIndexCount
        transforms := s1.quad.transforms ++ [⟨position, size⟩]
        transformIndexCount := s1.quad.transformIndexCount + 1
        indexCount := s1.quad.indexCount + 6 } },
   evs)

/-- The four vertices appended by the textured `drawQuad`
(renderer2d.cpp:291-300); same as the untextured ones but with the resolved
texture slot index. -/
def texturedQuadVertices (color : Vec4) (ti texIndex : Nat) : List QuadVertex :=
  (List.finRange 4).map fun i =>
    { pos := vec4ToVec3 (quadVertexPos i), color := color, uv := quadUvCoords i
      transformIndex := ti, textureIndex := texIndex }

/-- Textured `Renderer2D::drawQuad` (renderer2d.cpp:263-309): look the
texture up in the occupied slots; when absent, roll the quad batch over if
the slot table is full (`textureSlotIndex == maxTextureSlots`), assert that
it no longer is (`HYP_ASSERT_CORE`, modelled as an `assertFailed` event when
its condition is false), then assign the texture to the next slot. Then
append vertices and transform. Note: unlike the untextured overload, this
one performs no `maxQuad` capacity check. -/
def drawQuadTextured (s : RState) (position : Vec3) (size : Vec2) (texture : Tex)
    (color : Vec4) : RState × List Ev :=
  let found := utils.findSlot s.textureSlots s.textureSlotIndex texture
  let (s1, evs, texIndex) :=
    if found = 0 then
      let (sA, evsA) :=
        if s.textureSlotIndex = maxTextureSlots then utils.nextQuadBatch s
        else (s, [])
      let assertEvs := if sA.textureSlotIndex = maxTextureSlots then [Ev.assertFailed] else []
      ({ sA with
          textureSlots := setSlot sA.textureSlots sA.textureSlotIndex texture
          textureSlotIndex := sA.textureSlotIndex + 1 },
       evsA ++ assertEvs, sA.textureSlotIndex)
    else (s, [], found)
  ({ s1 with quad := { s1.quad with
        vertices := s1.quad.vertices ++ texturedQuadVertices color s1.quad.transformIndexCount texIndex
        transforms := s1.quad.transforms ++ [⟨position, size⟩]
        transformIndexCount := s1.quad.transformIndexCount + 1
        indexCount := s1.quad.indexCount + 6 } },
   evs)

/-- Embeds `Renderer2D::drawLine` (renderer2d.cpp:311-324): append the two
endpoints, then roll the line batch over when the vertex count has reached
`maxQuad` (the source compares against `maxQuad`, not `maxVertices`). -/
def drawLine (s : RState) (p1 p2 : Vec3) (color : Vec4) : RState × List Ev :=
  let s1 := { s with line := { vertices := s.line.vertices
                ++ [{ position := p1, color := color }, { position := p2, color := color }] } }
  if s1.line.vertices.length = maxQuad then utils.nextLineBatch s1 else (s1, [])

/-- Embeds `Renderer2D::drawCircle` (renderer2d.cpp:326-344): append four vertices
built from the quad corner table and bump the index count; there is no
capacity check (a TODO in the source). -/
def drawCircle (s : RState) (transform : Mat4) (thickness fade : ℚ) (color : Vec4) :
    RState × List Ev :=
  ({ s with circle := { s.circle with
        vertices := s.circle.vertices ++ (List.finRange 4).map (fun i =>
          { worldTransform := transform, corner := i
            localPosition := vec4ToVec3 ⟨2 * (quadVertexPos i).x, 2 * (quadVertexPos i).y,
              2 * (quadVertexPos i).z, 2 * (quadVertexPos i).w⟩
            color := color, thickness := thickness, fade := fade })
        indexCount := s.circle.indexCount + 6 } },
   [])

/-- Embeds `Renderer2D::getStats` (renderer2d.cpp:566-568). -/
def getStats (s : RState) : Stats := s.stats

end Renderer2D

/-! ## The Game-of-Life demo layer (`src/unnamed/part_000`) -/

/-- Board height constant `row = 50` from the demo layer. -/
def rowCount : Int := 50

/-- Board width constant `col = 50` from the demo layer. -/
def colCount : Int := 50

/-- The eight neighbour offsets visited by the double loop of
`is_cell_alive` (x outer from -1 to 1, y inner, skipping `(0,0)`). -/
def neighborOffsets : List (Int × Int) :=
  [(-1, -1), (-1, 0), (-1, 1), (0, -1), (0, 1), (1, -1), (1, 0), (1, 1)]

/-- The live-neighbour count computed by `is_cell_alive`
(part_000:34-54): a neighbour contributes when it is in bounds and its board
entry equals 1. The board is the global `int board[50][50]`, modelled as a
function. -/
def liveNeighbors (b : Int → Int → Int) (i j : Int) : Nat :=
  neighborOffsets.countP fun p =>
    decide (0 ≤ p.1 + i) && decide (p.1 + i < rowCount) &&
    decide (0 ≤ p.2 + j) && decide (p.2 + j < colCount) &&
    decide (b (p.1 + i) (p.2 + j) = 1)

/-- Embeds `is_cell_alive` (part_000:31-82): the next state of cell `(i,j)`.
`bool(board[i][j])` is true exactly when the entry is nonzero. The
`HYP_ASSERT(i < row && j < col)` is a debug bounds check that does not affect
the returned value. -/
def is_cell_alive (b : Int → Int → Int) (i j : Int) : Bool :=
  let live := liveNeighbors b i j
  let isAlive : Bool := decide (b i j ≠ 0)
  if isAlive then
    if live < 2 then false
    else if live = 2 ∨ live = 3 then true
    else false
  else if live = 3 then true
  else false

/-! ## Scenario runs used by the claims -/

/-- Sequencing helper: run `a`, then `f` on its state, concatenating the
event traces. -/
def stepThen (a : RState × List Ev) (f : RState → RState × List Ev) :
    RState × List Ev :=
  let (s2, e2) := f a.1
  (s2, a.2 ++ e2)

/-- Scene issuing `n` untextured `drawQuad` calls (all with the same
position/size/color — the batching logic never inspects them) after a
`beginScene` on the freshly initialized renderer. -/
def runUntex (vp : Mat4) (p : Vec3) (z : Vec2) (c : Vec4) : Nat → RState × List Ev
  | 0 => Renderer2D.beginScene initState vp
  | n + 1 => stepThen (runUntex vp p z c n) fun s => Renderer2D.drawQuad s p z c

/-- Scene issuing `n` textured `drawQuad` calls, all with the same texture
handle `t`. -/
def runSameTex (vp : Mat4) (p : Vec3) (z : Vec2) (t : Tex) (c : Vec4) :
    Nat → RState × List Ev
  | 0 => Renderer2D.beginScene initState vp
  | n + 1 => stepThen (runSameTex vp p z t c n) fun s =>
      Renderer2D.drawQuadTextured s p z t c

/-- Scene issuing `n` textured `drawQuad` calls where the `k`-th call
(1-based) uses handle `tex k`. -/
def runDistinctTex (vp : Mat4) (p : Vec3) (z : Vec2) (c : Vec4) (tex : Nat → Tex) :
    Nat → RState × List Ev
  | 0 => Renderer2D.beginScene initState vp
  | n + 1 => stepThen (runDistinctTex vp p z c tex n) fun s =>
      Renderer2D.drawQuadTextured s p z (tex (n + 1)) c

/-! ## Lemmas and claim theorems -/

/-- Concrete board: a dead cell at (1,1) with exactly three live neighbours. -/
def lifeBoardA : Int → Int → Int := fun i j =>
  if (i, j) ∈ ([(0, 1), (1, 0), (2, 2)] : List (Int × Int)) then 1 else 0

/-- Concrete board: a live cell at (1,1) with exactly two live neighbours. -/
def lifeBoardB : Int → Int → Int := fun i j =>
  if (i, j) ∈ ([(1, 1), (0, 1), (1, 0)] : List (Int × Int)) then 1 else 0

/-- Concrete board: the cell (1,1) has four live neighbours. -/
def lifeBoardC : Int → Int → Int := fun i j =>
  if (i, j) ∈ ([(0, 0), (0, 2), (2, 0), (2, 2)] : List (Int × Int)) then 1 else 0

/-- C9: for every board and cell, the next-state function `is_cell_alive`
makes a dead cell with exactly 3 live neighbours alive, keeps a live cell
with exactly 2 live neighbours alive, and kills any cell with 4 or more live
neighbours regardless of its previous state. -/
theorem C9_life_rules (b : Int → Int → Int) (i j : Int) :
    (b i j = 0 → liveNeighbors b i j = 3 → is_cell_alive b i j = true) ∧
    (b i j ≠ 0 → liveNeighbors b i j = 2 → is_cell_alive b i j = true) ∧
    (4 ≤ liveNeighbors b i j → is_cell_alive b i j = false) := by
  refine ⟨fun hb h3 => ?_, fun hb h2 => ?_, fun h4 => ?_⟩
  · simp [is_cell_alive, hb, h3]
  · simp [is_cell_alive, hb, h2]
  · have ha : ¬ liveNeighbors b i j < 2 := by omega
    have hbc : ¬ (liveNeighbors b i j = 2 ∨ liveNeighbors b i j = 3) := by omega
    have h3 : ¬ liveNeighbors b i j = 3 := by omega
    have h2 : ¬ liveNeighbors b i j = 2 := by omega
    by_cases hz : b i j = 0 <;> simp [is_cell_alive, hz, ha, hbc, h2, h3]

/-- Witness for C9 at three concrete boards around cell (1,1). -/
theorem C9_life_rules_witness :
    (lifeBoardA 1 1 = 0 ∧ liveNeighbors lifeBoardA 1 1 = 3 ∧
      is_cell_alive lifeBoardA 1 1 = true) ∧
    (lifeBoardB 1 1 ≠ 0 ∧ liveNeighbors lifeBoardB 1 1 = 2 ∧
      is_cell_alive lifeBoardB 1 1 = true) ∧
    (4 ≤ liveNeighbors lifeBoardC 1 1 ∧ is_cell_alive lifeBoardC 1 1 = false) :=
  ⟨⟨by decide, by decide, (C9_life_rules lifeBoardA 1 1).1 (by decide) (by decide)⟩,
   ⟨by decide, by decide, (C9_life_rules lifeBoardB 1 1).2.1 (by decide) (by decide)⟩,
   ⟨by decide, (C9_life_rules lifeBoardC 1 1).2.2 (by decide)⟩⟩

/-- C10: beginScene clears the queued lights and resets the light count to
zero, while the lighting-enabled flag is preserved by beginScene; the flag is
set by enableLighting and persists through a subsequent beginScene. -/
theorem C10_beginScene_lights (s : RState) (vp : Mat4) (value : Bool) :
    (Renderer2D.beginScene s vp).1.lighting.lights = [] ∧
    (Renderer2D.beginScene s vp).1.lighting.lightCount = 0 ∧
    (Renderer2D.beginScene s vp).1.lighting.enabled = s.lighting.enabled ∧
    (Renderer2D.enableLighting s value).lighting.enabled = value ∧
    (Renderer2D.beginScene (Renderer2D.enableLighting s value) vp).1.lighting.enabled
      = value := by
  simp [Renderer2D.beginScene, Renderer2D.startBatch, Renderer2D.enableLighting]

/-- Folding `addLight` preserves the count-equals-length invariant and
retains exactly the first `maxLight - currently-queued` new lights, in
order. -/
theorem addLight_foldl (ls : List Light) :
    ∀ s : RState, s.lighting.lightCount = s.lighting.lights.length →
      ((ls.foldl Renderer2D.addLight s).lighting.lights
        = s.lighting.lights ++ ls.take (maxLight - s.lighting.lights.length)) ∧
      (ls.foldl Renderer2D.addLight s).lighting.lightCount
        = (ls.foldl Renderer2D.addLight s).lighting.lights.length := by
  induction ls with
  | nil => intro s h; exact ⟨by simp, h⟩
  | cons l ls ih =>
    intro s h
    by_cases hc : maxLight ≤ s.lighting.lightCount
    · have hs : Renderer2D.addLight s l = s := by simp [Renderer2D.addLight, hc]
      have htake : maxLight - s.lighting.lights.length = 0 := by omega
      rcases ih s h with ⟨h1, h2⟩
      refine ⟨?_, ?_⟩
      · rw [List.foldl_cons, hs, h1, htake]
        simp
      · rw [List.foldl_cons, hs]
        exact h2
    · have hlt : s.lighting.lightCount < maxLight := by omega
      have hs : Renderer2D.addLight s l =
          { s with lighting := { s.lighting with
              lights := s.lighting.lights ++ [l]
              lightCount := s.lighting.lightCount + 1 } } := by
        simp [Renderer2D.addLight, hc]
      have hinv : (Renderer2D.addLight s l).lighting.lightCount
          = (Renderer2D.addLight s l).lighting.lights.length := by
        rw [hs]; simp [h]
      rcases ih (Renderer2D.addLight s l) hinv with ⟨h1, h2⟩
      refine ⟨?_, ?_⟩
      · rw [List.foldl_cons, h1, hs]
        simp only []
        have hsucc : maxLight - s.lighting.lights.length
            = (maxLight - (s.lighting.lights.length + 1)) + 1 := by omega
        rw [hsucc, List.take_succ_cons]
        simp [List.append_assoc]
      · rw [List.foldl_cons]
        exact h2

/-- C6: addLight appends only below the `maxLight` cap; at or beyond the cap
the call is a silent no-op leaving the list unchanged, so 40 addLight calls
within one scene retain exactly the first 32 lights, in order. -/
theorem C6_light_cap :
    (∀ (s : RState) (l : Light), maxLight ≤ s.lighting.lightCount →
      Renderer2D.addLight s l = s) ∧
    (∀ (s0 : RState) (vp : Mat4) (ls : List Light), ls.length = 40 →
      (ls.foldl Renderer2D.addLight (Renderer2D.beginScene s0 vp).1).lighting.lights
        = ls.take maxLight ∧
      (ls.foldl Renderer2D.addLight (Renderer2D.beginScene s0 vp).1).lighting.lightCount
        = maxLight) := by
  constructor
  · intro s l h; simp [Renderer2D.addLight, h]
  · intro s0 vp ls h40
    have hempty : (Renderer2D.beginScene s0 vp).1.lighting.lights = [] := by
      simp [Renderer2D.beginScene, Renderer2D.startBatch]
    have hcount : (Renderer2D.beginScene s0 vp).1.lighting.lightCount = 0 := by
      simp [Renderer2D.beginScene, Renderer2D.startBatch]
    rcases addLight_foldl ls (Renderer2D.beginScene s0 vp).1 (by rw [hempty, hcount]; rfl)
      with ⟨h1, h2⟩
    rw [hempty] at h1
    simp only [List.nil_append, List.length_nil, Nat.sub_zero] at h1
    refine ⟨h1, ?_⟩
    rw [h2, h1, List.length_take, h40]
    rfl

/-- Concrete renderer state already holding `maxLight` queued lights. -/
def lightfulState : RState :=
  { initState with lighting :=
      { lights := List.replicate 32 0, lightCount := 32, enabled := false } }

/-- Witness for C6: a 33rd light is dropped at the cap, and 40 lights fold
down to the first 32. -/
theorem C6_light_cap_witness :
    (maxLight ≤ lightfulState.lighting.lightCount ∧
      Renderer2D.addLight lightfulState 7 = lightfulState) ∧
    ((List.range 40).length = 40 ∧
      ((List.range 40).foldl Renderer2D.addLight
          (Renderer2D.beginScene initState ⟨0⟩).1).lighting.lights
        = (List.range 40).take maxLight) :=
  ⟨⟨by decide, C6_light_cap.1 lightfulState 7 (by decide)⟩,
   ⟨by decide, (C6_light_cap.2 initState ⟨0⟩ (List.range 40) (by decide)).1⟩⟩

/-- Counting quad draw calls distributes over trace concatenation. -/
theorem countQuadDraws_append (a b : List Ev) :
    countQuadDraws (a ++ b) = countQuadDraws a + countQuadDraws b := by
  simp [countQuadDraws, List.filter_append]

/-- Texture-bind events are not quad draw calls. -/
theorem countQuadDraws_binds (n : Nat) :
    countQuadDraws ((List.range n).map Ev.bindTexture) = 0 := by
  induction n with
  | zero => rfl
  | succ k ih =>
    rw [List.range_succ, List.map_append, countQuadDraws_append, ih]
    rfl

/-- Number of failed assertions in a trace. -/
def countAsserts (es : List Ev) : Nat := (es.filter Ev.isAssertFailed).length

/-- Counting failed assertions distributes over trace concatenation. -/
theorem countAsserts_append (a b : List Ev) :
    countAsserts (a ++ b) = countAsserts a + countAsserts b := by
  simp [countAsserts, List.filter_append]

/-- Texture-bind events are not failed assertions. -/
theorem countAsserts_binds (n : Nat) :
    countAsserts ((List.range n).map Ev.bindTexture) = 0 := by
  induction n with
  | zero => rfl
  | succ k ih =>
    rw [List.range_succ, List.map_append, countAsserts_append, ih]
    rfl

/-- A non-empty quad flush issues exactly one quad draw call. -/
theorem countQuadDraws_flushQuad (s : RState) (h : ¬ s.quad.vertices.length = 0) :
    countQuadDraws (utils.flushQuad s).2 = 1 := by
  unfold utils.flushQuad
  rw [if_neg h]
  simp only [countQuadDraws_append, countQuadDraws_binds]
  cases s.lighting.enabled <;> rfl

/-- A quad flush never emits a failed assertion. -/
theorem countAsserts_flushQuad (s : RState) :
    countAsserts (utils.flushQuad s).2 = 0 := by
  unfold utils.flushQuad
  by_cases h : s.quad.vertices.length = 0
  · rw [if_pos h]
    rfl
  · rw [if_neg h]
    simp only [countAsserts_append, countAsserts_binds]
    cases s.lighting.enabled <;> rfl

/-- An empty quad batch makes `flushQuad` a strict no-op. -/
theorem flushQuad_skip (s : RState) (h : s.quad.vertices.length = 0) :
    utils.flushQuad s = (s, []) := by
  unfold utils.flushQuad
  rw [if_pos h]

/-- Item `flushQuad` touches only the statistics fields of the state. -/
theorem flushQuad_fields (s : RState) :
    (utils.flushQuad s).1.quad = s.quad ∧
    (utils.flushQuad s).1.line = s.line ∧
    (utils.flushQuad s).1.circle = s.circle ∧
    (utils.flushQuad s).1.lighting = s.lighting ∧
    (utils.flushQuad s).1.textureSlots = s.textureSlots ∧
    (utils.flushQuad s).1.textureSlotIndex = s.textureSlotIndex := by
  unfold utils.flushQuad
  by_cases h : s.quad.vertices.length = 0
  · rw [if_pos h]; exact ⟨rfl, rfl, rfl, rfl, rfl, rfl⟩
  · rw [if_neg h]; exact ⟨rfl, rfl, rfl, rfl, rfl, rfl⟩

/-- Item `flushLine` touches only the statistics fields of the state. -/
theorem flushLine_fields (s : RState) :
    (utils.flushLine s).1.quad = s.quad ∧
    (utils.flushLine s).1.line = s.line ∧
    (utils.flushLine s).1.circle = s.circle ∧
    (utils.flushLine s).1.lighting = s.lighting ∧
    (utils.flushLine s).1.textureSlots = s.textureSlots ∧
    (utils.flushLine s).1.textureSlotIndex = s.textureSlotIndex := by
  unfold utils.flushLine
  by_cases h : s.line.vertices.length = 0
  · rw [if_pos h]; exact ⟨rfl, rfl, rfl, rfl, rfl, rfl⟩
  · rw [if_neg h]; exact ⟨rfl, rfl, rfl, rfl, rfl, rfl⟩

/-- An empty line batch makes `flushLine` a strict no-op. -/
theorem flushLine_skip (s : RState) (h : s.line.vertices.length = 0) :
    utils.flushLine s = (s, []) := by
  unfold utils.flushLine
  rw [if_pos h]

/-- Item `flushCircle` never changes the state at all (in particular it
updates no statistics). -/
theorem flushCircle_state (s : RState) : (utils.flushCircle s).1 = s := by
  unfold utils.flushCircle
  by_cases h : s.circle.indexCount = 0
  · rw [if_pos h]
  · rw [if_neg h]

/-- A circle batch with zero index count makes `flushCircle` a strict no-op. -/
theorem flushCircle_skip (s : RState) (h : s.circle.indexCount = 0) :
    utils.flushCircle s = (s, []) := by
  unfold utils.flushCircle
  rw [if_pos h]

/-- Scene containing exactly one circle and nothing else. -/
def circleScene : RState :=
  (Renderer2D.drawCircle (Renderer2D.beginScene initState ⟨0⟩).1 ⟨0⟩ 1 0
    ⟨1, 1, 1, 1⟩).1

/-- C5 counterexample: flushing a scene whose only content is one circle
issues the circle draw call but leaves the draw-call statistic at 0 — the
draw-call count is not updated for circles, refuting the claim as stated. -/
theorem C5_circle_stats_counterexample :
    ((Renderer2D.endScene circleScene).2.filter Ev.isCircleDraw).length = 1 ∧
    (Renderer2D.endScene circleScene).1.stats.drawCalls = 0 := by
  decide

/-- C5 (amended): a non-empty flush of each primitive kind uploads the CPU
data and issues exactly one draw call for that kind, and an empty one is
skipped entirely; quad and line flushes update their primitive counters and
the draw-call counter, but the circle flush updates no statistics at all
(its state is returned unchanged). -/
theorem C5_flush_behavior (s : RState) :
    (s.quad.vertices.length ≠ 0 →
      countQuadDraws (utils.flushQuad s).2 = 1 ∧
      Ev.uploadQuadVertices s.quad.vertices.length ∈ (utils.flushQuad s).2 ∧
      (utils.flushQuad s).1.stats.quadCount
        = s.stats.quadCount + s.quad.transforms.length ∧
      (utils.flushQuad s).1.stats.drawCalls = s.stats.drawCalls + 1) ∧
    (s.quad.vertices.length = 0 → utils.flushQuad s = (s, [])) ∧
    (s.line.vertices.length ≠ 0 →
      (utils.flushLine s).2
        = [Ev.uploadLineVertices s.line.vertices.length,
           Ev.drawVertexLines s.line.vertices.length] ∧
      (utils.flushLine s).1.stats.lineCount
        = s.stats.lineCount + (s.line.vertices.length : ℚ) / 2 ∧
      (utils.flushLine s).1.stats.drawCalls = s.stats.drawCalls + 1) ∧
    (s.line.vertices.length = 0 → utils.flushLine s = (s, [])) ∧
    (s.circle.indexCount ≠ 0 →
      (utils.flushCircle s).2
        = [Ev.uploadCircleVertices s.circle.vertices.length,
           Ev.drawIndexedCircle s.circle.indexCount] ∧
      (utils.flushCircle s).1 = s) ∧
    (s.circle.indexCount = 0 → utils.flushCircle s = (s, [])) := by
  refine ⟨fun h => ⟨countQuadDraws_flushQuad s h, ?_, ?_, ?_⟩,
    fun h => flushQuad_skip s h, fun h => ⟨?_, ?_, ?_⟩,
    fun h => flushLine_skip s h, fun h => ⟨?_, flushCircle_state s⟩,
    fun h => flushCircle_skip s h⟩
  · unfold utils.flushQuad
    rw [if_neg h]
    simp
  · unfold utils.flushQuad
    rw [if_neg h]
  · unfold utils.flushQuad
    rw [if_neg h]
  · unfold utils.flushLine
    rw [if_neg h]
  · unfold utils.flushLine
    rw [if_neg h]
  · unfold utils.flushLine
    rw [if_neg h]
  · unfold utils.flushCircle
    rw [if_neg h]

/-- Scene containing exactly one line segment. -/
def lineScene : RState :=
  (Renderer2D.drawLine (Renderer2D.beginScene initState ⟨0⟩).1 ⟨0, 0, 0⟩ ⟨1, 0, 0⟩
    ⟨1, 1, 1, 1⟩).1

/-- Scene containing exactly one untextured quad. -/
def quadScene : RState :=
  (Renderer2D.drawQuad (Renderer2D.beginScene initState ⟨0⟩).1 ⟨0, 0, 0⟩ ⟨1, 1⟩
    ⟨1, 1, 1, 1⟩).1

/-- Witness for C5 at concrete one-primitive scenes and at the empty scene. -/
theorem C5_flush_behavior_witness :
    (quadScene.quad.vertices.length ≠ 0 ∧
      countQuadDraws (utils.flushQuad quadScene).2 = 1) ∧
    (lineScene.line.vertices.length ≠ 0 ∧
      (utils.flushLine lineScene).1.stats.drawCalls
        = lineScene.stats.drawCalls + 1) ∧
    (circleScene.circle.indexCount ≠ 0 ∧ (utils.flushCircle circleScene).1 = circleScene) ∧
    ((Renderer2D.beginScene initState ⟨0⟩).1.quad.vertices.length = 0 ∧
      utils.flushQuad (Renderer2D.beginScene initState ⟨0⟩).1
        = ((Renderer2D.beginScene initState ⟨0⟩).1, [])) :=
  ⟨⟨by decide, ((C5_flush_behavior quadScene).1 (by decide)).1⟩,
   ⟨by decide, ((C5_flush_behavior lineScene).2.2.1 (by decide)).2.2⟩,
   ⟨by decide, ((C5_flush_behavior circleScene).2.2.2.2.1 (by decide)).2⟩,
   ⟨by decide, (C5_flush_behavior (Renderer2D.beginScene initState ⟨0⟩).1).2.1 (by decide)⟩⟩

/-- C8 counterexample: after a scene that drew one quad, the first
`endScene` flushes it, and — because `endScene` never resets — the second
`endScene` re-flushes the same batch and issues one more quad draw call,
refuting "zero additional draw calls on the second call". -/
theorem C8_second_endScene_counterexample :
    countQuadDraws (Renderer2D.endScene (Renderer2D.endScene quadScene).1).2 = 1 := by
  decide

/-- C8 (amended): `endScene` only flushes: every batch's contents, the
texture table and the lighting state are unchanged (only statistics move);
and when all batches are empty (no draw command was issued since
`beginScene`), `endScene` emits no draw call at all and a second `endScene`
is likewise silent. In general a non-empty batch is re-flushed and re-drawn
by a second `endScene`. -/
theorem C8_endScene_no_reset (s : RState) :
    ((Renderer2D.endScene s).1.quad = s.quad ∧
     (Renderer2D.endScene s).1.line = s.line ∧
     (Renderer2D.endScene s).1.circle = s.circle ∧
     (Renderer2D.endScene s).1.lighting = s.lighting ∧
     (Renderer2D.endScene s).1.textureSlots = s.textureSlots ∧
     (Renderer2D.endScene s).1.textureSlotIndex = s.textureSlotIndex) ∧
    (s.quad.vertices = [] → s.line.vertices = [] → s.circle.indexCount = 0 →
      Renderer2D.endScene s = (s, []) ∧
      Renderer2D.endScene (Renderer2D.endScene s).1 = (s, [])) := by
  constructor
  · unfold Renderer2D.endScene Renderer2D.flush
    rcases flushQuad_fields s with ⟨q1, l1, c1, g1, t1, i1⟩
    rcases flushLine_fields (utils.flushQuad s).1 with ⟨q2, l2, c2, g2, t2, i2⟩
    have c3 := flushCircle_state (utils.flushLine (utils.flushQuad s).1).1
    simp only [c3]
    exact ⟨by rw [q2, q1], by rw [l2, l1], by rw [c2, c1], by rw [g2, g1],
      by rw [t2, t1], by rw [i2, i1]⟩
  · intro hq hl hc
    have h1 : utils.flushQuad s = (s, []) := flushQuad_skip s (by rw [hq]; rfl)
    have h2 : utils.flushLine s = (s, []) := flushLine_skip s (by rw [hl]; rfl)
    have h3 : utils.flushCircle s = (s, []) := flushCircle_skip s hc
    have he : Renderer2D.endScene s = (s, []) := by
      unfold Renderer2D.endScene Renderer2D.flush
      rw [h1]
      simp only []
      rw [h2]
      simp only []
      rw [h3]
      rfl
    refine ⟨he, ?_⟩
    rw [he]
    exact he

/-- Witness for C8 at the empty scene right after `beginScene`. -/
theorem C8_endScene_no_reset_witness :
    Renderer2D.endScene (Renderer2D.beginScene initState ⟨0⟩).1
      = ((Renderer2D.beginScene initState ⟨0⟩).1, []) :=
  ((C8_endScene_no_reset (Renderer2D.beginScene initState ⟨0⟩).1).2 (by decide)
    (by decide) (by decide)).1

/-- Looking a texture up when the slot table holds it at slot 1 and only
slot 1 is occupied finds slot 1. -/
theorem findSlot_two (slots : Nat → Option Tex) (t : Tex) (h : slots 1 = some t) :
    utils.findSlot slots 2 t = 1 := by
  unfold utils.findSlot
  simp [List.range', h]

/-- Unfolding equation for the trace-concatenating sequencer. -/
theorem stepThen_eq (a : RState × List Ev) (f : RState → RState × List Ev) :
    stepThen a f = ((f a.1).1, a.2 ++ (f a.1).2) := rfl

/-- Equation for the textured drawQuad when the texture is found at a
non-zero slot: no device event, no slot change, just the append. -/
theorem drawQuadTextured_found (s : RState) (p : Vec3) (z : Vec2) (t : Tex)
    (c : Vec4) (j : Nat)
    (hfind : utils.findSlot s.textureSlots s.textureSlotIndex t = j) (hj : ¬ j = 0) :
    Renderer2D.drawQuadTextured s p z t c =
      ({ s with quad := { s.quad with
          vertices := s.quad.vertices
            ++ Renderer2D.texturedQuadVertices c s.quad.transformIndexCount j
          transforms := s.quad.transforms ++ [⟨p, z⟩]
          transformIndexCount := s.quad.transformIndexCount + 1
          indexCount := s.quad.indexCount + 6 } }, []) := by
  simp [Renderer2D.drawQuadTextured, hfind, hj]

/-- Equation for the textured drawQuad when the texture is new and the slot
table still has room: assign the next slot, bump the index, append; no
device event and no assertion failure. -/
theorem drawQuadTextured_notFound_room (s : RState) (p : Vec3) (z : Vec2)
    (t : Tex) (c : Vec4)
    (hfind : utils.findSlot s.textureSlots s.textureSlotIndex t = 0)
    (hroom : ¬ s.textureSlotIndex = maxTextureSlots) :
    Renderer2D.drawQuadTextured s p z t c =
      ({ s with
          textureSlots := setSlot s.textureSlots s.textureSlotIndex t
          textureSlotIndex := s.textureSlotIndex + 1
          quad := { s.quad with
            vertices := s.quad.vertices
              ++ Renderer2D.texturedQuadVertices c s.quad.transformIndexCount s.textureSlotIndex
            transforms := s.quad.transforms ++ [⟨p, z⟩]
            transformIndexCount := s.quad.transformIndexCount + 1
            indexCount := s.quad.indexCount + 6 } }, []) := by
  simp [Renderer2D.drawQuadTextured, hfind, hroom]

/-- Invariant describing a scene of `n ≥ 1` textured draws that all used the
same texture handle `t`. -/
def sameTexInv (t : Tex) (n : Nat) (r : RState × List Ev) : Prop :=
  r.2 = [Ev.uploadCamera] ∧
  r.1.textureSlotIndex = 2 ∧
  r.1.textureSlots 1 = some t ∧
  r.1.quad.transforms.length = n ∧
  r.1.quad.vertices.length = 4 * n ∧
  r.1.quad.transformIndexCount = n ∧
  r.1.quad.indexCount = 6 * n ∧
  r.1.line.vertices = [] ∧
  r.1.circle.indexCount = 0

/-- Repeatedly drawing with one and the same texture handle keeps exactly
one occupied slot beyond the default and never flushes. -/
theorem runSameTex_inv (vp : Mat4) (p : Vec3) (z : Vec2) (t : Tex) (c : Vec4) :
    ∀ n : Nat, sameTexInv t (n + 1) (runSameTex vp p z t c (n + 1)) := by
  intro n
  induction n with
  | zero =>
    have hfind : utils.findSlot
        (Renderer2D.beginScene initState vp).1.textureSlots
        (Renderer2D.beginScene initState vp).1.textureSlotIndex t = 0 := by
      simp [utils.findSlot, Renderer2D.beginScene, Renderer2D.startBatch, List.range']
    have hroom : ¬ (Renderer2D.beginScene initState vp).1.textureSlotIndex
        = maxTextureSlots := by
      simp [Renderer2D.beginScene, Renderer2D.startBatch, maxTextureSlots]
    show sameTexInv t 1 (stepThen (Renderer2D.beginScene initState vp)
      fun s => Renderer2D.drawQuadTextured s p z t c)
    rw [stepThen_eq]
    rw [drawQuadTextured_notFound_room _ p z t c hfind hroom]
    unfold sameTexInv
    refine ⟨?_, ?_, ?_, ?_, ?_, ?_, ?_, ?_, ?_⟩ <;>
      simp [Renderer2D.beginScene, Renderer2D.startBatch, setSlot,
        Renderer2D.texturedQuadVertices, QuadData.reset, LineData.reset,
        CircleData.reset]
  | succ k ih =>
    rcases ih with ⟨htr, hidx, hslot, hlen, hvlen, htic, hic, hline, hcirc⟩
    have hfind : utils.findSlot (runSameTex vp p z t c (k + 1)).1.textureSlots
        (runSameTex vp p z t c (k + 1)).1.textureSlotIndex t = 1 := by
      rw [hidx]
      exact findSlot_two _ t hslot
    show sameTexInv t (k + 2) (stepThen (runSameTex vp p z t c (k + 1))
      fun s => Renderer2D.drawQuadTextured s p z t c)
    rw [stepThen_eq]
    rw [drawQuadTextured_found _ p z t c 1 hfind (by omega)]
    unfold sameTexInv
    refine ⟨?_, ?_, ?_, ?_, ?_, ?_, ?_, ?_, ?_⟩
    · rw [htr]
      rfl
    · exact hidx
    · exact hslot
    · simp [hlen]
    · simp [hvlen, Renderer2D.texturedQuadVertices]
      omega
    · simp [htic]
    · simp [hic]
      omega
    · exact hline
    · exact hcirc

/-- Unfolding equation for `flush` as a composition of the three per-kind
flushes with concatenated traces. -/
theorem flush_eq (s : RState) :
    Renderer2D.flush s =
      ((utils.flushCircle (utils.flushLine (utils.flushQuad s).1).1).1,
        ((utils.flushQuad s).2 ++ (utils.flushLine (utils.flushQuad s).1).2)
          ++ (utils.flushCircle (utils.flushLine (utils.flushQuad s).1).1).2) := rfl

/-- Item `flush` on a state whose line batch is empty and whose circle batch
has no indices issues exactly one (quad) draw call when the quad batch is
non-empty. -/
theorem countQuadDraws_flush (s : RState) (hq : ¬ s.quad.vertices.length = 0)
    (hl : s.line.vertices = []) (hc : s.circle.indexCount = 0) :
    countQuadDraws (Renderer2D.flush s).2 = 1 := by
  have h2 : utils.flushLine (utils.flushQuad s).1 = ((utils.flushQuad s).1, []) :=
    flushLine_skip _ (by rw [(flushQuad_fields s).2.1, hl]; rfl)
  have h3 : utils.flushCircle ((utils.flushQuad s).1, ([] : List Ev)).1
      = ((utils.flushQuad s).1, []) :=
    flushCircle_skip _ (by rw [(flushQuad_fields s).2.2.1]; exact hc)
  rw [flush_eq, h2, h3]
  rw [countQuadDraws_append, countQuadDraws_append,
    countQuadDraws_flushQuad s hq]
  rfl

/-- C2 (evidence of the missing capacity check): a scene of `maxQuad + 1`
textured drawQuad calls with one texture handle never rolls the batch over —
no quad draw call is issued during the draws — and leaves `maxQuad + 1`
quad instances in the batch, exceeding the claimed `≤ maxQuad` invariant
(the untextured overload checks `transforms.size() == maxQuad`; the textured
overload, renderer2d.cpp:263-309, performs no such check). -/
theorem C2_textured_no_capacity_check (vp : Mat4) (p : Vec3) (z : Vec2)
    (t : Tex) (c : Vec4) :
    (runSameTex vp p z t c (maxQuad + 1)).1.quad.transforms.length = maxQuad + 1 ∧
    maxQuad < maxQuad + 1 ∧
    countQuadDraws (runSameTex vp p z t c (maxQuad + 1)).2 = 0 := by
  rcases runSameTex_inv vp p z t c maxQuad with ⟨htr, _, _, hlen, _⟩
  refine ⟨hlen, Nat.lt_succ_self _, ?_⟩
  rw [htr]
  rfl

/-- C4: drawing with one and the same texture handle `2 * maxTextureSlots`
(64) times in one scene reuses the slot found by the identity lookup: no
draw call happens during the 64 draws and at every point at most one slot
beyond the default slot 0 is occupied (`textureSlotIndex = 2` and the handle
sits at slot 1); the closing `endScene` then issues exactly one quad draw
call. -/
theorem C4_texture_slot_reuse (vp : Mat4) (p : Vec3) (z : Vec2) (t : Tex)
    (c : Vec4) :
    (∀ k : Nat, 1 ≤ k → k ≤ 64 →
      (runSameTex vp p z t c k).1.textureSlotIndex = 2 ∧
      (runSameTex vp p z t c k).1.textureSlots 1 = some t ∧
      countQuadDraws (runSameTex vp p z t c k).2 = 0) ∧
    countQuadDraws (stepThen (runSameTex vp p z t c 64) Renderer2D.endScene).2
      = 1 := by
  constructor
  · intro k h1 h64
    obtain ⟨m, rfl⟩ : ∃ m, k = m + 1 := ⟨k - 1, by omega⟩
    rcases runSameTex_inv vp p z t c m with ⟨htr, hidx, hslot, _⟩
    exact ⟨hidx, hslot, by rw [htr]; rfl⟩
  · rw [show (64 : Nat) = 63 + 1 from rfl]
    rcases runSameTex_inv vp p z t c 63 with
      ⟨htr, hidx, hslot, hlen, hvlen, htic, hic, hline, hcirc⟩
    rw [stepThen_eq, countQuadDraws_append, htr]
    have hq : ¬ (runSameTex vp p z t c (63 + 1)).1.quad.vertices.length = 0 := by
      rw [hvlen]
      norm_num
    have hend : countQuadDraws
        (Renderer2D.endScene (runSameTex vp p z t c (63 + 1)).1).2 = 1 :=
      countQuadDraws_flush (runSameTex vp p z t c (63 + 1)).1 hq hline hcirc
    rw [hend]
    rfl

/-- Witness for C4 at a concrete texture handle and scene parameters. -/
theorem C4_texture_slot_reuse_witness :
    (1 ≤ 64 ∧ (64 : Nat) ≤ 64 ∧
      (runSameTex ⟨0⟩ ⟨0, 0, 0⟩ ⟨1, 1⟩ 5 ⟨1, 1, 1, 1⟩ 64).1.textureSlotIndex = 2) ∧
    countQuadDraws (stepThen (runSameTex ⟨0⟩ ⟨0, 0, 0⟩ ⟨1, 1⟩ 5 ⟨1, 1, 1, 1⟩ 64)
      Renderer2D.endScene).2 = 1 :=
  ⟨⟨by decide, by decide,
    ((C4_texture_slot_reuse ⟨0⟩ ⟨0, 0, 0⟩ ⟨1, 1⟩ 5 ⟨1, 1, 1, 1⟩).1 64 (by decide)
      (by decide)).1⟩,
   (C4_texture_slot_reuse ⟨0⟩ ⟨0, 0, 0⟩ ⟨1, 1⟩ 5 ⟨1, 1, 1, 1⟩).2⟩

/-- Equation for the untextured drawQuad when the batch is below capacity:
plain append, no device event. -/
theorem drawQuad_append (s : RState) (p : Vec3) (z : Vec2) (c : Vec4)
    (h : ¬ s.quad.transforms.length = maxQuad) :
    Renderer2D.drawQuad s p z c =
      ({ s with quad := { s.quad with
          vertices := s.quad.vertices
            ++ Renderer2D.untexturedQuadVertices c s.quad.transformIndexCount
          transforms := s.quad.transforms ++ [⟨p, z⟩]
          transformIndexCount := s.quad.transformIndexCount + 1
          indexCount := s.quad.indexCount + 6 } }, []) := by
  simp [Renderer2D.drawQuad, h]

/-- Rollover leaves a freshly reset quad batch. -/
theorem nextQuadBatch_quad (s : RState) :
    (utils.nextQuadBatch s).1.quad = QuadData.reset := rfl

/-- Rollover emits exactly the flush events. -/
theorem nextQuadBatch_evs (s : RState) :
    (utils.nextQuadBatch s).2 = (utils.flushQuad s).2 := rfl

/-- Rollover does not touch the line batch. -/
theorem nextQuadBatch_line (s : RState) :
    (utils.nextQuadBatch s).1.line = (utils.flushQuad s).1.line := rfl

/-- Rollover does not touch the circle batch. -/
theorem nextQuadBatch_circle (s : RState) :
    (utils.nextQuadBatch s).1.circle = (utils.flushQuad s).1.circle := rfl

/-- Equation for the untextured drawQuad at exactly `maxQuad` queued
transforms: the batch is rolled over (flushed and reset) first, then the
quad goes into the fresh batch. -/
theorem drawQuad_roll (s : RState) (p : Vec3) (z : Vec2) (c : Vec4)
    (h : s.quad.transforms.length = maxQuad) :
    Renderer2D.drawQuad s p z c =
      ({ (utils.nextQuadBatch s).1 with quad :=
          { vertices := Renderer2D.untexturedQuadVertices c 0
            transforms := [⟨p, z⟩]
            transformIndexCount := 1
            indexCount := 6 } },
        (utils.nextQuadBatch s).2) := by
  simp [Renderer2D.drawQuad, h, nextQuadBatch_quad, QuadData.reset]

/-- Event-trace projection of the rollover equation. -/
theorem drawQuad_roll_evs (s : RState) (p : Vec3) (z : Vec2) (c : Vec4)
    (h : s.quad.transforms.length = maxQuad) :
    (Renderer2D.drawQuad s p z c).2 = (utils.flushQuad s).2 := by
  rw [drawQuad_roll s p z c h]
  exact nextQuadBatch_evs s

/-- After a rollover draw the fresh batch holds the four new vertices. -/
theorem drawQuad_roll_vertices (s : RState) (p : Vec3) (z : Vec2) (c : Vec4)
    (h : s.quad.transforms.length = maxQuad) :
    (Renderer2D.drawQuad s p z c).1.quad.vertices
      = Renderer2D.untexturedQuadVertices c 0 := by
  rw [drawQuad_roll s p z c h]

/-- A rollover draw leaves the line batch untouched. -/
theorem drawQuad_roll_line (s : RState) (p : Vec3) (z : Vec2) (c : Vec4)
    (h : s.quad.transforms.length = maxQuad) :
    (Renderer2D.drawQuad s p z c).1.line = s.line := by
  rw [drawQuad_roll s p z c h]
  show (utils.nextQuadBatch s).1.line = s.line
  rw [nextQuadBatch_line, (flushQuad_fields s).2.1]

/-- A rollover draw leaves the circle batch untouched. -/
theorem drawQuad_roll_circle (s : RState) (p : Vec3) (z : Vec2) (c : Vec4)
    (h : s.quad.transforms.length = maxQuad) :
    (Renderer2D.drawQuad s p z c).1.circle = s.circle := by
  rw [drawQuad_roll s p z c h]
  show (utils.nextQuadBatch s).1.circle = s.circle
  rw [nextQuadBatch_circle, (flushQuad_fields s).2.2.1]

/-- Projections of the sequencer applied to an untextured draw step. -/
theorem stepThen_drawQuad_fst (a : RState × List Ev) (p : Vec3) (z : Vec2)
    (c : Vec4) :
    (stepThen a fun s => Renderer2D.drawQuad s p z c).1
      = (Renderer2D.drawQuad a.1 p z c).1 := rfl

/-- Trace projection of the sequencer applied to an untextured draw step. -/
theorem stepThen_drawQuad_snd (a : RState × List Ev) (p : Vec3) (z : Vec2)
    (c : Vec4) :
    (stepThen a fun s => Renderer2D.drawQuad s p z c).2
      = a.2 ++ (Renderer2D.drawQuad a.1 p z c).2 := rfl

/-- Invariant describing a scene of `n ≤ maxQuad` untextured draws: nothing
has been flushed and the batch holds exactly the `n` quads. -/
def untexInv (n : Nat) (r : RState × List Ev) : Prop :=
  r.2 = [Ev.uploadCamera] ∧
  r.1.quad.transforms.length = n ∧
  r.1.quad.vertices.length = 4 * n ∧
  r.1.quad.transformIndexCount = n ∧
  r.1.quad.indexCount = 6 * n ∧
  r.1.line.vertices = [] ∧
  r.1.circle.indexCount = 0 ∧
  r.1.textureSlotIndex = 1

/-- Up to `maxQuad` untextured draws never trigger a rollover. -/
theorem runUntex_inv (vp : Mat4) (p : Vec3) (z : Vec2) (c : Vec4) :
    ∀ n : Nat, n ≤ maxQuad → untexInv n (runUntex vp p z c n) := by
  intro n
  induction n with
  | zero =>
    intro _
    unfold untexInv
    refine ⟨rfl, ?_, ?_, ?_, ?_, ?_, ?_, ?_⟩ <;>
      simp [runUntex, Renderer2D.beginScene, Renderer2D.startBatch,
        QuadData.reset, LineData.reset, CircleData.reset]
  | succ k ih =>
    intro hk
    rcases ih (by omega) with ⟨htr, hlen, hv, htic, hin, hline, hcirc, hidx⟩
    have hne : ¬ (runUntex vp p z c k).1.quad.transforms.length = maxQuad := by
      rw [hlen]
      omega
    show untexInv (k + 1) (stepThen (runUntex vp p z c k)
      fun s => Renderer2D.drawQuad s p z c)
    rw [stepThen_eq]
    rw [drawQuad_append _ p z c hne]
    unfold untexInv
    refine ⟨?_, ?_, ?_, ?_, ?_, ?_, ?_, ?_⟩
    · rw [htr]
      rfl
    · simp [hlen]
    · simp [hv, Renderer2D.untexturedQuadVertices]
      omega
    · simp [htic]
    · simp [hin]
      omega
    · exact hline
    · exact hcirc
    · exact hidx

/-- C1: in one scene, `maxQuad + 1` untextured drawQuad calls produce
exactly 2 quad draw calls: none during the first `maxQuad` calls, one from
the rollover inside the `maxQuad + 1`-th call, and one more from the final
`endScene` flush. -/
theorem C1_flush_count (vp : Mat4) (p : Vec3) (z : Vec2) (c : Vec4) :
    countQuadDraws (runUntex vp p z c maxQuad).2 = 0 ∧
    countQuadDraws (runUntex vp p z c (maxQuad + 1)).2 = 1 ∧
    countQuadDraws (stepThen (runUntex vp p z c (maxQuad + 1))
      Renderer2D.endScene).2 = 2 := by
  rcases runUntex_inv vp p z c maxQuad le_rfl with
    ⟨htr, hlen, hv, htic, hin, hline, hcirc, hidx⟩
  have hq0 : ¬ (runUntex vp p z c maxQuad).1.quad.vertices.length = 0 := by
    rw [hv]
    norm_num [maxQuad]
  have hstep : ∀ m : Nat, runUntex vp p z c (m + 1)
      = stepThen (runUntex vp p z c m) (fun s => Renderer2D.drawQuad s p z c) :=
    fun m => rfl
  have h1 : countQuadDraws (runUntex vp p z c (maxQuad + 1)).2 = 1 := by
    rw [hstep maxQuad, stepThen_drawQuad_snd, countQuadDraws_append, htr,
      drawQuad_roll_evs _ p z c hlen, countQuadDraws_flushQuad _ hq0]
    rfl
  have hq1 : ¬ (runUntex vp p z c (maxQuad + 1)).1.quad.vertices.length = 0 := by
    rw [hstep maxQuad, stepThen_drawQuad_fst, drawQuad_roll_vertices _ p z c hlen]
    simp [Renderer2D.untexturedQuadVertices]
  have hline1 : (runUntex vp p z c (maxQuad + 1)).1.line.vertices = [] := by
    rw [hstep maxQuad, stepThen_drawQuad_fst, drawQuad_roll_line _ p z c hlen]
    exact hline
  have hcirc1 : (runUntex vp p z c (maxQuad + 1)).1.circle.indexCount = 0 := by
    rw [hstep maxQuad, stepThen_drawQuad_fst, drawQuad_roll_circle _ p z c hlen]
    exact hcirc
  refine ⟨by rw [htr]; rfl, h1, ?_⟩
  rw [stepThen_eq, countQuadDraws_append, h1]
  have hend : countQuadDraws
      (Renderer2D.endScene (runUntex vp p z c (maxQuad + 1)).1).2 = 1 :=
    countQuadDraws_flush (runUntex vp p z c (maxQuad + 1)).1 hq1 hline1 hcirc1
  rw [hend]

/-- Generic state projection of the sequencer. -/
theorem stepThen_fst (a : RState × List Ev) (f : RState → RState × List Ev) :
    (stepThen a f).1 = (f a.1).1 := rfl

/-- Generic trace projection of the sequencer. -/
theorem stepThen_snd (a : RState × List Ev) (f : RState → RState × List Ev) :
    (stepThen a f).2 = a.2 ++ (f a.1).2 := rfl

/-- Rollover resets the slot index to 1. -/
theorem nextQuadBatch_slotIndex (s : RState) :
    (utils.nextQuadBatch s).1.textureSlotIndex = 1 := rfl

/-- Rollover does not clear the slot array itself. -/
theorem nextQuadBatch_slots (s : RState) :
    (utils.nextQuadBatch s).1.textureSlots = s.textureSlots := by
  show (utils.flushQuad s).1.textureSlots = s.textureSlots
  exact (flushQuad_fields s).2.2.2.2.1

/-- An unknown texture never compares equal to any occupied slot. -/
theorem findSlot_eq_zero (slots : Nat → Option Tex) (idx : Nat) (t : Tex)
    (h : ∀ i, i ∈ List.range' 1 (idx - 1) → ¬ slots i = some t) :
    utils.findSlot slots idx t = 0 := by
  unfold utils.findSlot
  have hnone : (List.range' 1 (idx - 1)).find? (fun i => slots i == some t)
      = none := by
    rw [List.find?_eq_none]
    intro x hx
    simp [h x hx]
  rw [hnone]
  rfl

/-- Equation for the textured drawQuad when the texture is new and the slot
table is full (`textureSlotIndex == maxTextureSlots`): the quad batch is
rolled over (flush + reset, slot index back to 1), the assertion passes
silently, and the texture is assigned to slot 1 of the retained slot
array. -/
theorem drawQuadTextured_notFound_full (s : RState) (p : Vec3) (z : Vec2)
    (t : Tex) (c : Vec4)
    (hfind : utils.findSlot s.textureSlots s.textureSlotIndex t = 0)
    (hfull : s.textureSlotIndex = maxTextureSlots) :
    Renderer2D.drawQuadTextured s p z t c =
      ({ (utils.nextQuadBatch s).1 with
          textureSlots := setSlot (utils.nextQuadBatch s).1.textureSlots 1 t
          textureSlotIndex := 2
          quad := { vertices := Renderer2D.texturedQuadVertices c 0 1
                    transforms := [⟨p, z⟩]
                    transformIndexCount := 1
                    indexCount := 6 } },
        (utils.nextQuadBatch s).2) := by
  have hone : ¬ (1 : Nat) = maxTextureSlots := by decide
  have hfind2 : utils.findSlot s.textureSlots maxTextureSlots t = 0 := by
    rw [← hfull]
    exact hfind
  simp [Renderer2D.drawQuadTextured, hfind2, hfull, nextQuadBatch_quad,
    QuadData.reset, nextQuadBatch_slotIndex, hone]

/-- Trace projection of the full-table equation: the events are those of the
quad flush, with no assertion failure. -/
theorem dqtFull_evs (s : RState) (p : Vec3) (z : Vec2) (t : Tex) (c : Vec4)
    (hfind : utils.findSlot s.textureSlots s.textureSlotIndex t = 0)
    (hfull : s.textureSlotIndex = maxTextureSlots) :
    (Renderer2D.drawQuadTextured s p z t c).2 = (utils.flushQuad s).2 := by
  rw [drawQuadTextured_notFound_full s p z t c hfind hfull]
  exact nextQuadBatch_evs s

/-- Slot-array projection of the full-table equation. -/
theorem dqtFull_slots (s : RState) (p : Vec3) (z : Vec2) (t : Tex) (c : Vec4)
    (hfind : utils.findSlot s.textureSlots s.textureSlotIndex t = 0)
    (hfull : s.textureSlotIndex = maxTextureSlots) :
    (Renderer2D.drawQuadTextured s p z t c).1.textureSlots
      = setSlot s.textureSlots 1 t := by
  rw [drawQuadTextured_notFound_full s p z t c hfind hfull]
  show setSlot (utils.nextQuadBatch s).1.textureSlots 1 t = setSlot s.textureSlots 1 t
  rw [nextQuadBatch_slots]

/-- Slot-index projection of the full-table equation. -/
theorem dqtFull_slotIndex (s : RState) (p : Vec3) (z : Vec2) (t : Tex) (c : Vec4)
    (hfind : utils.findSlot s.textureSlots s.textureSlotIndex t = 0)
    (hfull : s.textureSlotIndex = maxTextureSlots) :
    (Renderer2D.drawQuadTextured s p z t c).1.textureSlotIndex = 2 := by
  rw [drawQuadTextured_notFound_full s p z t c hfind hfull]

/-- Vertex projection of the full-table equation. -/
theorem dqtFull_vertices (s : RState) (p : Vec3) (z : Vec2) (t : Tex) (c : Vec4)
    (hfind : utils.findSlot s.textureSlots s.textureSlotIndex t = 0)
    (hfull : s.textureSlotIndex = maxTextureSlots) :
    (Renderer2D.drawQuadTextured s p z t c).1.quad.vertices
      = Renderer2D.texturedQuadVertices c 0 1 := by
  rw [drawQuadTextured_notFound_full s p z t c hfind hfull]

/-- Line-batch projection of the full-table equation. -/
theorem dqtFull_line (s : RState) (p : Vec3) (z : Vec2) (t : Tex) (c : Vec4)
    (hfind : utils.findSlot s.textureSlots s.textureSlotIndex t = 0)
    (hfull : s.textureSlotIndex = maxTextureSlots) :
    (Renderer2D.drawQuadTextured s p z t c).1.line = s.line := by
  rw [drawQuadTextured_notFound_full s p z t c hfind hfull]
  show (utils.nextQuadBatch s).1.line = s.line
  rw [nextQuadBatch_line, (flushQuad_fields s).2.1]

/-- Circle-batch projection of the full-table equation. -/
theorem dqtFull_circle (s : RState) (p : Vec3) (z : Vec2) (t : Tex) (c : Vec4)
    (hfind : utils.findSlot s.textureSlots s.textureSlotIndex t = 0)
    (hfull : s.textureSlotIndex = maxTextureSlots) :
    (Renderer2D.drawQuadTextured s p z t c).1.circle = s.circle := by
  rw [drawQuadTextured_notFound_full s p z t c hfind hfull]
  show (utils.nextQuadBatch s).1.circle = s.circle
  rw [nextQuadBatch_circle, (flushQuad_fields s).2.2.1]

/-- Trace projection of the room-available equation: no device event. -/
theorem dqtRoom_evs (s : RState) (p : Vec3) (z : Vec2) (t : Tex) (c : Vec4)
    (hfind : utils.findSlot s.textureSlots s.textureSlotIndex t = 0)
    (hroom : ¬ s.textureSlotIndex = maxTextureSlots) :
    (Renderer2D.drawQuadTextured s p z t c).2 = [] := by
  rw [drawQuadTextured_notFound_room s p z t c hfind hroom]

/-- Slot-array projection of the room-available equation. -/
theorem dqtRoom_slots (s : RState) (p : Vec3) (z : Vec2) (t : Tex) (c : Vec4)
    (hfind : utils.findSlot s.textureSlots s.textureSlotIndex t = 0)
    (hroom : ¬ s.textureSlotIndex = maxTextureSlots) :
    (Renderer2D.drawQuadTextured s p z t c).1.textureSlots
      = setSlot s.textureSlots s.textureSlotIndex t := by
  rw [drawQuadTextured_notFound_room s p z t c hfind hroom]

/-- Slot-index projection of the room-available equation. -/
theorem dqtRoom_slotIndex (s : RState) (p : Vec3) (z : Vec2) (t : Tex) (c : Vec4)
    (hfind : utils.findSlot s.textureSlots s.textureSlotIndex t = 0)
    (hroom : ¬ s.textureSlotIndex = maxTextureSlots) :
    (Renderer2D.drawQuadTextured s p z t c).1.textureSlotIndex
      = s.textureSlotIndex + 1 := by
  rw [drawQuadTextured_notFound_room s p z t c hfind hroom]

/-- Scenes of `k ≤ 31` pairwise-distinct textures fill slots `1 … k` in
first-seen order without ever flushing. -/
theorem runDistinctTex_inv (vp : Mat4) (p : Vec3) (z : Vec2) (c : Vec4)
    (tex : Nat → Tex)
    (hinj : ∀ a b, 1 ≤ a → a ≤ 33 → 1 ≤ b → b ≤ 33 → tex a = tex b → a = b) :
    ∀ k : Nat, k ≤ 31 →
      (runDistinctTex vp p z c tex k).2 = [Ev.uploadCamera] ∧
      (runDistinctTex vp p z c tex k).1.textureSlotIndex = k + 1 ∧
      (∀ i, 1 ≤ i → i ≤ k →
        (runDistinctTex vp p z c tex k).1.textureSlots i = some (tex i)) ∧
      (runDistinctTex vp p z c tex k).1.quad.transforms.length = k ∧
      (runDistinctTex vp p z c tex k).1.quad.vertices.length = 4 * k ∧
      (runDistinctTex vp p z c tex k).1.quad.transformIndexCount = k ∧
      (runDistinctTex vp p z c tex k).1.quad.indexCount = 6 * k ∧
      (runDistinctTex vp p z c tex k).1.line.vertices = [] ∧
      (runDistinctTex vp p z c tex k).1.circle.indexCount = 0 := by
  intro k
  induction k with
  | zero =>
    intro _
    refine ⟨rfl, ?_, ?_, ?_, ?_, ?_, ?_, ?_, ?_⟩ <;>
      first
        | (intro i h1 h0; omega)
        | simp [runDistinctTex, Renderer2D.beginScene, Renderer2D.startBatch,
            QuadData.reset, LineData.reset, CircleData.reset]
  | succ k ih =>
    intro hk
    rcases ih (by omega) with
      ⟨htr, hidx, hslots, hlen, hv, htic, hin, hline, hcirc⟩
    have hfind : utils.findSlot (runDistinctTex vp p z c tex k).1.textureSlots
        (runDistinctTex vp p z c tex k).1.textureSlotIndex (tex (k + 1)) = 0 := by
      rw [hidx]
      apply findSlot_eq_zero
      intro i hi
      rw [List.mem_range'_1] at hi
      have h1i : 1 ≤ i := hi.1
      have h2i : i ≤ k := by omega
      rw [hslots i h1i h2i]
      intro hcontra
      have heq : tex i = tex (k + 1) := Option.some.inj hcontra
      have := hinj i (k + 1) h1i (by omega) (by omega) (by omega) heq
      omega
    have hroom : ¬ (runDistinctTex vp p z c tex k).1.textureSlotIndex
        = maxTextureSlots := by
      rw [hidx]
      have hms : maxTextureSlots = 32 := rfl
      omega
    show _ ∧ _ ∧ _ ∧ _ ∧ _ ∧ _ ∧ _ ∧ _ ∧ _
    rw [show runDistinctTex vp p z c tex (k + 1)
        = stepThen (runDistinctTex vp p z c tex k)
            (fun s => Renderer2D.drawQuadTextured s p z (tex (k + 1)) c) from rfl]
    rw [stepThen_eq]
    rw [drawQuadTextured_notFound_room _ p z (tex (k + 1)) c hfind hroom]
    refine ⟨?_, ?_, ?_, ?_, ?_, ?_, ?_, ?_, ?_⟩
    · rw [htr]
      rfl
    · show (runDistinctTex vp p z c tex k).1.textureSlotIndex + 1 = k + 1 + 1
      rw [hidx]
    · intro i h1i hik
      show setSlot (runDistinctTex vp p z c tex k).1.textureSlots
          (runDistinctTex vp p z c tex k).1.textureSlotIndex (tex (k + 1)) i
        = some (tex i)
      rw [hidx]
      unfold setSlot
      by_cases hieq : i = k + 1
      · subst hieq
        simp
      · rw [if_neg hieq]
        exact hslots i h1i (by omega)
    · show ((runDistinctTex vp p z c tex k).1.quad.transforms
          ++ [({ position := p, size := z } : QuadModel)]).length = k + 1
      simp [hlen]
    · show ((runDistinctTex vp p z c tex k).1.quad.vertices
          ++ Renderer2D.texturedQuadVertices c
              (runDistinctTex vp p z c tex k).1.quad.transformIndexCount
              (runDistinctTex vp p z c tex k).1.textureSlotIndex).length
        = 4 * (k + 1)
      simp [hv, Renderer2D.texturedQuadVertices]
      omega
    · show (runDistinctTex vp p z c tex k).1.quad.transformIndexCount + 1 = k + 1
      rw [htic]
    · show (runDistinctTex vp p z c tex k).1.quad.indexCount + 6 = 6 * (k + 1)
      rw [hin]
      omega
    · exact hline
    · exact hcirc

/-- C3: in one scene, textured drawQuad calls with 32 pairwise-distinct
texture handles followed by a 33rd distinct handle trigger exactly one
implicit quad-batch flush over the whole sequence (it happens during the
32nd call, when the table of 31 user slots plus the default slot is full);
after the flush-and-reset the triggering texture is accepted at slot 1 of
the reset table and the 33rd at slot 2, and no assertion failure (the only
error channel) is ever emitted. -/
theorem C3_texture_slot_exhaustion (vp : Mat4) (p : Vec3) (z : Vec2) (c : Vec4)
    (tex : Nat → Tex)
    (hinj : ∀ a b, 1 ≤ a → a ≤ 33 → 1 ≤ b → b ≤ 33 → tex a = tex b → a = b) :
    countQuadDraws (runDistinctTex vp p z c tex 31).2 = 0 ∧
    countQuadDraws (runDistinctTex vp p z c tex 32).2 = 1 ∧
    countQuadDraws (runDistinctTex vp p z c tex 33).2 = 1 ∧
    countAsserts (runDistinctTex vp p z c tex 33).2 = 0 ∧
    (runDistinctTex vp p z c tex 33).1.textureSlots 1 = some (tex 32) ∧
    (runDistinctTex vp p z c tex 33).1.textureSlots 2 = some (tex 33) ∧
    (runDistinctTex vp p z c tex 33).1.textureSlotIndex = 3 := by
  rcases runDistinctTex_inv vp p z c tex hinj 31 le_rfl with
    ⟨htr, hidx, hslots, hlen, hv, htic, hin, hline, hcirc⟩
  have hstepD : ∀ m : Nat, runDistinctTex vp p z c tex (m + 1)
      = stepThen (runDistinctTex vp p z c tex m)
          (fun s => Renderer2D.drawQuadTextured s p z (tex (m + 1)) c) :=
    fun m => rfl
  have e32 : runDistinctTex vp p z c tex 32
      = stepThen (runDistinctTex vp p z c tex 31)
          (fun s => Renderer2D.drawQuadTextured s p z (tex 32) c) := hstepD 31
  have e33 : runDistinctTex vp p z c tex 33
      = stepThen (runDistinctTex vp p z c tex 32)
          (fun s => Renderer2D.drawQuadTextured s p z (tex 33) c) := hstepD 32
  have hfind32 : utils.findSlot (runDistinctTex vp p z c tex 31).1.textureSlots
      (runDistinctTex vp p z c tex 31).1.textureSlotIndex (tex 32) = 0 := by
    rw [hidx]
    apply findSlot_eq_zero
    intro i hi
    rw [List.mem_range'_1] at hi
    have h1i : 1 ≤ i := hi.1
    have h2i : i ≤ 31 := by omega
    rw [hslots i h1i h2i]
    intro hcontra
    have heq : tex i = tex 32 := Option.some.inj hcontra
    have := hinj i 32 h1i (by omega) (by omega) (by omega) heq
    omega
  have hfull32 : (runDistinctTex vp p z c tex 31).1.textureSlotIndex
      = maxTextureSlots := by
    rw [hidx]
    rfl
  have hq31 : ¬ (runDistinctTex vp p z c tex 31).1.quad.vertices.length = 0 := by
    rw [hv]
    norm_num
  have h32evs : (runDistinctTex vp p z c tex 32).2
      = [Ev.uploadCamera] ++ (utils.flushQuad (runDistinctTex vp p z c tex 31).1).2 := by
    rw [e32, stepThen_snd, htr,
      dqtFull_evs (runDistinctTex vp p z c tex 31).1 p z (tex 32) c hfind32 hfull32]
  have h32slots : (runDistinctTex vp p z c tex 32).1.textureSlots
      = setSlot (runDistinctTex vp p z c tex 31).1.textureSlots 1 (tex 32) := by
    rw [e32, stepThen_fst,
      dqtFull_slots (runDistinctTex vp p z c tex 31).1 p z (tex 32) c hfind32 hfull32]
  have h32idx : (runDistinctTex vp p z c tex 32).1.textureSlotIndex = 2 := by
    rw [e32, stepThen_fst,
      dqtFull_slotIndex (runDistinctTex vp p z c tex 31).1 p z (tex 32) c hfind32 hfull32]
  have h32draws : countQuadDraws (runDistinctTex vp p z c tex 32).2 = 1 := by
    rw [h32evs, countQuadDraws_append, countQuadDraws_flushQuad _ hq31]
    rfl
  have hfind33 : utils.findSlot (runDistinctTex vp p z c tex 32).1.textureSlots
      (runDistinctTex vp p z c tex 32).1.textureSlotIndex (tex 33) = 0 := by
    rw [h32idx, h32slots]
    apply findSlot_eq_zero
    intro i hi
    rw [List.mem_range'_1] at hi
    have : i = 1 := by omega
    subst this
    unfold setSlot
    rw [if_pos rfl]
    intro hcontra
    have heq : tex 32 = tex 33 := Option.some.inj hcontra
    have := hinj 32 33 (by omega) (by omega) (by omega) (by omega) heq
    omega
  have hroom33 : ¬ (runDistinctTex vp p z c tex 32).1.textureSlotIndex
      = maxTextureSlots := by
    rw [h32idx]
    decide
  refine ⟨by rw [htr]; rfl, h32draws, ?_, ?_, ?_, ?_, ?_⟩
  · rw [e33, stepThen_snd,
      dqtRoom_evs (runDistinctTex vp p z c tex 32).1 p z (tex 33) c hfind33 hroom33,
      List.append_nil]
    exact h32draws
  · rw [e33, stepThen_snd,
      dqtRoom_evs (runDistinctTex vp p z c tex 32).1 p z (tex 33) c hfind33 hroom33,
      List.append_nil, h32evs, countAsserts_append, countAsserts_flushQuad]
    rfl
  · rw [e33, stepThen_fst,
      dqtRoom_slots (runDistinctTex vp p z c tex 32).1 p z (tex 33) c hfind33 hroom33,
      h32idx, h32slots]
    unfold setSlot
    norm_num
  · rw [e33, stepThen_fst,
      dqtRoom_slots (runDistinctTex vp p z c tex 32).1 p z (tex 33) c hfind33 hroom33,
      h32idx]
    unfold setSlot
    norm_num
  · rw [e33, stepThen_fst,
      dqtRoom_slotIndex (runDistinctTex vp p z c tex 32).1 p z (tex 33) c hfind33 hroom33,
      h32idx]

/-- Witness for C3 with the identity handle family, which is injective. -/
theorem C3_texture_slot_exhaustion_witness :
    countQuadDraws (runDistinctTex ⟨0⟩ ⟨0, 0, 0⟩ ⟨1, 1⟩ ⟨1, 1, 1, 1⟩
        (fun n => n) 33).2 = 1 ∧
    countAsserts (runDistinctTex ⟨0⟩ ⟨0, 0, 0⟩ ⟨1, 1⟩ ⟨1, 1, 1, 1⟩
        (fun n => n) 33).2 = 0 :=
  ⟨(C3_texture_slot_exhaustion ⟨0⟩ ⟨0, 0, 0⟩ ⟨1, 1⟩ ⟨1, 1, 1, 1⟩ (fun n => n)
      (fun _ _ _ _ _ _ h => h)).2.2.1,
   (C3_texture_slot_exhaustion ⟨0⟩ ⟨0, 0, 0⟩ ⟨1, 1⟩ ⟨1, 1, 1, 1⟩ (fun n => n)
      (fun _ _ _ _ _ _ h => h)).2.2.2.1⟩

/-- Embeds `Renderer2D::deinit` (renderer2d.cpp:153-160): clears only the
CPU vertex vectors. -/
def Renderer2D.deinit (s : RState) : RState :=
  { s with
    quad := { s.quad with vertices := [] }
    line := { s.line with vertices := [] }
    circle := { s.circle with vertices := [] } }

/-- States reachable from `init` through the public renderer operations. -/
inductive Reach : RState → Prop where
  | init : Reach initState
  | beginScene (s : RState) (vp : Mat4) :
      Reach s → Reach (Renderer2D.beginScene s vp).1
  | endScene (s : RState) : Reach s → Reach (Renderer2D.endScene s).1
  | flushStep (s : RState) : Reach s → Reach (Renderer2D.flush s).1
  | nextBatch (s : RState) : Reach s → Reach (Renderer2D.nextBatch s).1
  | enableLighting (s : RState) (b : Bool) :
      Reach s → Reach (Renderer2D.enableLighting s b)
  | addLight (s : RState) (l : Light) :
      Reach s → Reach (Renderer2D.addLight s l)
  | drawQuad (s : RState) (p : Vec3) (z : Vec2) (c : Vec4) :
      Reach s → Reach (Renderer2D.drawQuad s p z c).1
  | drawQuadTextured (s : RState) (p : Vec3) (z : Vec2) (t : Tex) (c : Vec4) :
      Reach s → Reach (Renderer2D.drawQuadTextured s p z t c).1
  | drawLine (s : RState) (p1 p2 : Vec3) (c : Vec4) :
      Reach s → Reach (Renderer2D.drawLine s p1 p2 c).1
  | drawCircle (s : RState) (m : Mat4) (th fa : ℚ) (c : Vec4) :
      Reach s → Reach (Renderer2D.drawCircle s m th fa c).1
  | deinit (s : RState) : Reach s → Reach (Renderer2D.deinit s)

/-- Lemma `endScene` is exactly `flush`. -/
theorem endScene_eq_flush (s : RState) :
    Renderer2D.endScene s = Renderer2D.flush s := rfl

/-- Item `flush` preserves the slot table and the slot index. -/
theorem flush_slots (s : RState) :
    (Renderer2D.flush s).1.textureSlots = s.textureSlots ∧
    (Renderer2D.flush s).1.textureSlotIndex = s.textureSlotIndex := by
  rw [flush_eq]
  constructor
  · show (utils.flushCircle (utils.flushLine (utils.flushQuad s).1).1).1.textureSlots
      = s.textureSlots
    rw [flushCircle_state, (flushLine_fields _).2.2.2.2.1,
      (flushQuad_fields _).2.2.2.2.1]
  · show (utils.flushCircle (utils.flushLine (utils.flushQuad s).1).1).1.textureSlotIndex
      = s.textureSlotIndex
    rw [flushCircle_state, (flushLine_fields _).2.2.2.2.2,
      (flushQuad_fields _).2.2.2.2.2]

/-- Item `nextBatch` preserves the slot table and resets the index. -/
theorem nextBatch_slots (s : RState) :
    (Renderer2D.nextBatch s).1.textureSlots = s.textureSlots ∧
    (Renderer2D.nextBatch s).1.textureSlotIndex = 1 := by
  constructor
  · show (Renderer2D.flush s).1.textureSlots = s.textureSlots
    exact (flush_slots s).1
  · rfl

/-- Item `addLight` never touches the slot table. -/
theorem addLight_slots (s : RState) (l : Light) :
    (Renderer2D.addLight s l).textureSlots = s.textureSlots ∧
    (Renderer2D.addLight s l).textureSlotIndex = s.textureSlotIndex := by
  unfold Renderer2D.addLight
  split
  · exact ⟨rfl, rfl⟩
  · exact ⟨rfl, rfl⟩

/-- The untextured drawQuad never touches the slot table. -/
theorem drawQuad_slotsEq (s : RState) (p : Vec3) (z : Vec2) (c : Vec4) :
    (Renderer2D.drawQuad s p z c).1.textureSlots = s.textureSlots := by
  by_cases h : s.quad.transforms.length = maxQuad
  · rw [drawQuad_roll s p z c h]
    show (utils.nextQuadBatch s).1.textureSlots = s.textureSlots
    exact nextQuadBatch_slots s
  · rw [drawQuad_append s p z c h]

/-- The untextured drawQuad keeps or resets the slot index. -/
theorem drawQuad_slotIndex (s : RState) (p : Vec3) (z : Vec2) (c : Vec4) :
    (Renderer2D.drawQuad s p z c).1.textureSlotIndex = s.textureSlotIndex ∨
    (Renderer2D.drawQuad s p z c).1.textureSlotIndex = 1 := by
  by_cases h : s.quad.transforms.length = maxQuad
  · right
    rw [drawQuad_roll s p z c h]
    show (utils.nextQuadBatch s).1.textureSlotIndex = 1
    exact nextQuadBatch_slotIndex s
  · left
    rw [drawQuad_append s p z c h]

/-- The textured drawQuad writes only at a slot index that is at least 1,
so slot 0 survives, and the index stays at least 1. -/
theorem drawQuadTextured_slot_preserve (s : RState) (p : Vec3) (z : Vec2)
    (t : Tex) (c : Vec4) (hpos : 1 ≤ s.textureSlotIndex) :
    (Renderer2D.drawQuadTextured s p z t c).1.textureSlots 0 = s.textureSlots 0 ∧
    1 ≤ (Renderer2D.drawQuadTextured s p z t c).1.textureSlotIndex := by
  by_cases hf : utils.findSlot s.textureSlots s.textureSlotIndex t = 0
  · by_cases hfull : s.textureSlotIndex = maxTextureSlots
    · constructor
      · rw [dqtFull_slots s p z t c hf hfull]
        unfold setSlot
        norm_num
      · rw [dqtFull_slotIndex s p z t c hf hfull]
        omega
    · constructor
      · rw [dqtRoom_slots s p z t c hf hfull]
        unfold setSlot
        have hne : ¬ (0 : Nat) = s.textureSlotIndex := by omega
        rw [if_neg hne]
      · rw [dqtRoom_slotIndex s p z t c hf hfull]
        omega
  · rw [drawQuadTextured_found s p z t c _ rfl hf]
    exact ⟨rfl, hpos⟩

/-- Item `drawLine` never touches the slot table. -/
theorem drawLine_slots (s : RState) (p1 p2 : Vec3) (c : Vec4) :
    (Renderer2D.drawLine s p1 p2 c).1.textureSlots = s.textureSlots ∧
    (Renderer2D.drawLine s p1 p2 c).1.textureSlotIndex = s.textureSlotIndex := by
  have key : ∀ s1 : RState, s1.textureSlots = s.textureSlots →
      s1.textureSlotIndex = s.textureSlotIndex →
      ((if s1.line.vertices.length = maxQuad then utils.nextLineBatch s1
        else (s1, [])).1.textureSlots = s.textureSlots ∧
       (if s1.line.vertices.length = maxQuad then utils.nextLineBatch s1
        else (s1, [])).1.textureSlotIndex = s.textureSlotIndex) := by
    intro s1 h1 h2
    split
    · constructor
      · show (utils.flushLine s1).1.textureSlots = s.textureSlots
        rw [(flushLine_fields s1).2.2.2.2.1, h1]
      · show (utils.flushLine s1).1.textureSlotIndex = s.textureSlotIndex
        rw [(flushLine_fields s1).2.2.2.2.2, h2]
    · exact ⟨h1, h2⟩
  exact key _ rfl rfl

/-- C7: in every reachable state slot 0 holds the default white texture and
the next-free-slot index never drops below 1 (so no operation can overwrite
slot 0), and every vertex appended by the untextured drawQuad carries
texture index 0, referencing the default slot. -/
theorem C7_default_slot_zero :
    (∀ s : RState, Reach s →
      s.textureSlots 0 = some defaultTex ∧ 1 ≤ s.textureSlotIndex) ∧
    (∀ (s : RState) (p : Vec3) (z : Vec2) (c : Vec4) (v : QuadVertex),
      v ∈ (Renderer2D.drawQuad s p z c).1.quad.vertices →
      v ∈ s.quad.vertices ∨ v.textureIndex = 0) := by
  constructor
  · intro s h
    induction h with
    | init => exact ⟨rfl, le_refl 1⟩
    | beginScene s vp hs ih => exact ⟨ih.1, le_refl 1⟩
    | endScene s hs ih =>
      refine ⟨?_, ?_⟩
      · rw [endScene_eq_flush, (flush_slots s).1]
        exact ih.1
      · rw [endScene_eq_flush, (flush_slots s).2]
        exact ih.2
    | flushStep s hs ih =>
      refine ⟨?_, ?_⟩
      · rw [(flush_slots s).1]
        exact ih.1
      · rw [(flush_slots s).2]
        exact ih.2
    | nextBatch s hs ih =>
      refine ⟨?_, ?_⟩
      · rw [(nextBatch_slots s).1]
        exact ih.1
      · rw [(nextBatch_slots s).2]
    | enableLighting s b hs ih => exact ⟨ih.1, ih.2⟩
    | addLight s l hs ih =>
      refine ⟨?_, ?_⟩
      · rw [(addLight_slots s l).1]
        exact ih.1
      · rw [(addLight_slots s l).2]
        exact ih.2
    | drawQuad s p z c hs ih =>
      refine ⟨?_, ?_⟩
      · rw [drawQuad_slotsEq s p z c]
        exact ih.1
      · rcases drawQuad_slotIndex s p z c with h | h
        · rw [h]
          exact ih.2
        · rw [h]
    | drawQuadTextured s p z t c hs ih =>
      have hp := drawQuadTextured_slot_preserve s p z t c ih.2
      refine ⟨?_, hp.2⟩
      rw [hp.1]
      exact ih.1
    | drawLine s p1 p2 c hs ih =>
      refine ⟨?_, ?_⟩
      · rw [(drawLine_slots s p1 p2 c).1]
        exact ih.1
      · rw [(drawLine_slots s p1 p2 c).2]
        exact ih.2
    | drawCircle s m th fa c hs ih => exact ⟨ih.1, ih.2⟩
    | deinit s hs ih => exact ⟨ih.1, ih.2⟩
  · intro s p z c v hv
    by_cases h : s.quad.transforms.length = maxQuad
    · right
      rw [drawQuad_roll s p z c h] at hv
      have hv2 : v ∈ Renderer2D.untexturedQuadVertices c 0 := hv
      unfold Renderer2D.untexturedQuadVertices at hv2
      rcases List.mem_map.mp hv2 with ⟨i, _, hvi⟩
      rw [← hvi]
    · rw [drawQuad_append s p z c h] at hv
      have hv2 : v ∈ s.quad.vertices
          ++ Renderer2D.untexturedQuadVertices c s.quad.transformIndexCount := hv
      rcases List.mem_append.mp hv2 with h1 | h2
      · exact Or.inl h1
      · right
        unfold Renderer2D.untexturedQuadVertices at h2
        rcases List.mem_map.mp h2 with ⟨i, _, hvi⟩
        rw [← hvi]

/-- The first vertex the untextured drawQuad appends to a fresh batch. -/
def witnessVertex : QuadVertex :=
  { pos := ⟨1/2, 1/2, 0⟩, color := ⟨1, 1, 1, 1⟩, uv := ⟨1, 1⟩
    transformIndex := 0, textureIndex := 0 }

/-- Witness for C7 at the init state and at a concrete drawQuad call. -/
theorem C7_default_slot_zero_witness :
    initState.textureSlots 0 = some defaultTex ∧
    (witnessVertex ∈ (Renderer2D.beginScene initState ⟨0⟩).1.quad.vertices ∨
      witnessVertex.textureIndex = 0) := by
  have hne : ¬ (Renderer2D.beginScene initState ⟨0⟩).1.quad.transforms.length
      = maxQuad := by decide
  have hmem0 : witnessVertex ∈ Renderer2D.untexturedQuadVertices ⟨1, 1, 1, 1⟩ 0 := by
    unfold Renderer2D.untexturedQuadVertices
    exact List.mem_map.mpr ⟨0, by decide, rfl⟩
  have hmem : witnessVertex ∈ (Renderer2D.drawQuad
      (Renderer2D.beginScene initState ⟨0⟩).1 ⟨0, 0, 0⟩ ⟨1, 1⟩
      ⟨1, 1, 1, 1⟩).1.quad.vertices := by
    rw [drawQuad_append _ _ _ _ hne]
    show witnessVertex ∈ (Renderer2D.beginScene initState ⟨0⟩).1.quad.vertices
        ++ Renderer2D.untexturedQuadVertices ⟨1, 1, 1, 1⟩ 0
    exact List.mem_append_right _ hmem0
  exact ⟨(C7_default_slot_zero.1 initState Reach.init).1,
    C7_default_slot_zero.2 (Renderer2D.beginScene initState ⟨0⟩).1 ⟨0, 0, 0⟩
      ⟨1, 1⟩ ⟨1, 1, 1, 1⟩ witnessVertex hmem⟩
